import Mathlib

/-
  Verification of the lgtv-ts LGTVHandler (src: LGTVHandler class, helpers/enums).

  Shallow embedding notes:
  - The request/response correlation layer of `sendMessage` (lines 146-189 of the
    handler) is embedded as a per-request state machine `ReqState`/`reqStep`:
    the promise's settled value is write-once (`settle`), the message listener
    matches `json.id && json.id === id` (`idMatches`, with JS string truthiness),
    a JSON.parse failure hits the listener's catch which calls `reject(error)`
    without removing the listener, and the 5000 ms setTimeout removes the
    listener and rejects "Timeout".
  - Inbound socket data either parses to a frame or throws: `Inbound.frame` /
    `Inbound.malformed`.
  - `waitForSocketOpen` (lines 259-277) is embedded with the connection flags
    sampled at each 1 ms poll as Boolean streams indexed by elapsed milliseconds.
  - File persistence (`register`, lines 197-242) is embedded over an association
    list from absolute path to contents; the relative path "./keys/<ip>" the
    source writes to resolves against the process working directory.
-/

namespace LGTV

/-- Parsed inbound JSON frame: `id` is `json.id` (absent when the JSON has no
id field), `type` is `json.type`, `body` stands for the remaining payload data
and serves to distinguish frames. -/
structure InFrame where
  id : Option String
  type : String
  body : String
deriving DecidableEq, Repr

/-- Raw inbound socket data: it either JSON-parses to a frame or
JSON.parse throws (`malformed`, carrying the raw text). -/
inductive Inbound where
  | malformed : String → Inbound
  | frame : InFrame → Inbound
deriving DecidableEq, Repr

/-- The settled value of one sendMessage promise: resolved with a frame,
rejected with a parse error, or rejected with "Timeout". -/
inductive Outcome where
  | response : InFrame → Outcome
  | parseError : String → Outcome
  | timedOut : Outcome
deriving DecidableEq, Repr

/-- State of one in-flight sendMessage call: its generated uuid, the
write-once settled value of its promise, and whether its message listener is
still registered on the socket. -/
structure ReqState where
  reqId : String
  settled : Option Outcome
  listenerActive : Bool
deriving DecidableEq, Repr

/-- A freshly issued request: unsettled, listener registered. -/
def initReq (id : String) : ReqState := ⟨id, none, true⟩

/-- JS truthiness of a string: every string except "" is truthy. -/
def jsTruthy (s : String) : Bool := s != ""

/-- The listener's match test `json.id && json.id === id`: the frame must have
an id, it must be truthy, and it must equal the request's id. -/
def idMatches (f : InFrame) (reqId : String) : Bool :=
  match f.id with
  | some s => jsTruthy s && s == reqId
  | none => false

/-- Promise settlement is write-once: resolve/reject on an already settled
promise is a no-op. -/
def settle (o : Outcome) (s : ReqState) : ReqState :=
  match s.settled with
  | some _ => s
  | none => { s with settled := some o }

/-- An event observed by one pending request: an inbound socket message, or
the firing of its own 5000 ms timeout. -/
inductive CorrEv where
  | msg : Inbound → CorrEv
  | timeoutFire : CorrEv
deriving DecidableEq, Repr

/-- One step of the sendMessage promise machinery.
Message while the listener is registered: a parse failure runs the catch,
which rejects with the error and leaves the listener registered; a frame whose
id matches removes the listener and resolves with the frame; any other frame
is ignored. Message after removal: ignored. Timeout firing: removes the
listener and rejects "Timeout" (a no-op if already settled). -/
def reqStep (s : ReqState) : CorrEv → ReqState
  | .msg m =>
    if s.listenerActive then
      match m with
      | .malformed raw => settle (.parseError raw) s
      | .frame f =>
        if idMatches f s.reqId then settle (.response f) { s with listenerActive := false }
        else s
    else s
  | .timeoutFire => settle .timedOut { s with listenerActive := false }

/-- Run one pending request over a sequence of events. -/
def runReq (s : ReqState) (evs : List CorrEv) : ReqState := List.foldl reqStep s evs

/-- The socket delivers each inbound message to every registered listener:
one dispatch step over the list of pending requests. -/
def deliverAll (m : Inbound) (ps : List ReqState) : List ReqState :=
  ps.map (fun s => reqStep s (CorrEv.msg m))

/-- Deliver a sequence of inbound messages to a set of pending requests. -/
def runAll (msgs : List Inbound) (ps : List ReqState) : List ReqState :=
  msgs.foldl (fun acc m => deliverAll m acc) ps

/-- The readiness condition polled by waitForSocketOpen:
`this.isConnected && this.isRegistered`, sampled at poll instant `t`
(the connection flags change over time, so they are streams indexed by the
elapsed milliseconds). -/
def socketReady (connected registered : Nat → Bool) (t : Nat) : Bool :=
  connected t && registered t

/-- The check loop of waitForSocketOpen: at each poll, resolve if ready;
otherwise reject once `elapsed >= timeout`, else add the 1 ms interval and
check again. `fuel` maintains `fuel = timeout - elapsed`, so fuel 0 is
exactly the `elapsed >= timeout` rejection point of the source. -/
def waitCheck (rdy : Nat → Bool) (timeout : Nat) : Nat → Nat → Except String Nat
  | 0, elapsed =>
    if rdy elapsed then .ok elapsed
    else .error ("Socket did not open within " ++ toString timeout ++ "ms")
  | f + 1, elapsed =>
    if rdy elapsed then .ok elapsed
    else waitCheck rdy timeout f (elapsed + 1)

/-- waitForSocketOpen(timeout): poll the connection flags every 1 ms starting
at elapsed 0, until ready or until elapsed reaches the timeout. -/
def waitForSocketOpen (connected registered : Nat → Bool) (timeout : Nat) :
    Except String Nat :=
  waitCheck (socketReady connected registered) timeout timeout 0

/-- JS template-literal interpolation of a possibly-undefined string:
undefined stringifies to "undefined". -/
def jsInterp (o : Option String) : String :=
  match o with
  | some s => s
  | none => "undefined"

/-- An outbound frame as built by sendMessage: the generated uuid, the type,
and the uri field, which is the template literal prefix ++ uri (payload is
carried separately where a claim needs it). -/
structure OutFrame where
  id : String
  type : String
  uri : String
deriving DecidableEq, Repr

/-- Frame construction of sendMessage lines 176-183: the uri field is the
unconditional concatenation of the prefix with the (possibly undefined)
uri argument. -/
def mkOutFrame (id typ : String) (uri : Option String) (pfx : String) : OutFrame :=
  ⟨id, typ, pfx ++ jsInterp uri⟩

/-- The register call of lines 214-218: sendMessage("register", undefined,
pairing) with the default prefix "ssap://". -/
def registerFrame (id : String) : OutFrame :=
  mkOutFrame id "register" none "ssap://"

/-- The pre-send phase of sendMessage: for type "request" it first awaits
waitForSocketOpen(5000) and rejects with its error before any send; any other
type (and a successful wait) proceeds to build and send the frame. Returns
the call's early result together with the list of frames put on the wire. -/
def sendMessagePre (typ : String) (connected registered : Nat → Bool)
    (id : String) (uri : Option String) (pfx : String) :
    Except String Unit × List OutFrame :=
  if typ == "request" then
    match waitForSocketOpen connected registered 5000 with
    | .error e => (.error e, [])
    | .ok _ => (.ok (), [mkOutFrame id typ uri pfx])
  else (.ok (), [mkOutFrame id typ uri pfx])

/-- Filesystem model for the credential store: an association list from
absolute file path to file contents (the raw UTF-8 credential string). -/
def Fs : Type := List (String × String)

/-- Read the file at a path, if present. -/
def lookupFile : Fs → String → Option String
  | [], _ => none
  | (q, d) :: rest, p => if q == p then some d else lookupFile rest p

/-- Write a file: overwrite an existing entry at the path or append a new one. -/
def writeFs : Fs → String → String → Fs
  | [], p, c => [(p, c)]
  | (q, d) :: rest, p, c =>
    if q == p then (p, c) :: rest else (q, d) :: writeFs rest p c

/-- The key file register reads: readdir(keyPath) followed by find(f => f === ip)
and readFile is the file named after the device ip inside the configured key
directory. -/
def keyFilePath (kp ip : String) : String := kp ++ "/" ++ ip

/-- The path register writes the freshly obtained key to: the source uses the
literal relative path "./keys/" ++ ip, which the filesystem resolves against
the process working directory, i.e. cwd ++ "/keys/" ++ ip. -/
def savedKeyPath (cwd ip : String) : String := cwd ++ "/keys" ++ "/" ++ ip

/-- The default key directory of the constructor: keyPath || cwd() ++ "/keys". -/
def defaultKeyPath (cwd : String) : String := cwd ++ "/keys"

/-- Modelled from the spec: the pairing manifest (module pairing.ts, not under
src/) is "a fixed descriptor of client identity/capabilities plus, when
present, the previously obtained credential string under a client-key field".
Only its mutable client-key slot is relevant to the claims; the fixed
descriptor part is elided. -/
structure Pairing where
  clientKey : Option String
deriving DecidableEq, Repr

/-- Modelled from the spec: at process start the pairing manifest carries no
client-key (the credential is only added once loaded or obtained). -/
def pairingInit : Pairing := ⟨none⟩

/-- A handshake frame as seen by register's confirmation listener: its type
and the client-key string of its payload. -/
structure HandshakeFrame where
  type : String
  clientKey : String
deriving DecidableEq, Repr

/-- State of the pairing-confirmation phase: the shared pairing manifest, the
isRegistered flag, the filesystem, and whether the confirmation listener is
still registered. -/
structure ConfirmState where
  pairing : Pairing
  isRegistered : Bool
  fs : Fs
  listenerActive : Bool

/-- One message delivered to register's confirmation listener (lines 227-239):
a frame of type "registered" stores its client-key into the pairing manifest,
writes it to the literal path "./keys/" ++ ip, sets isRegistered, and removes
the listener; every other frame is ignored. -/
def confirmStep (cwd ip : String) (s : ConfirmState) (f : HandshakeFrame) :
    ConfirmState :=
  if s.listenerActive && f.type == "registered" then
    ⟨⟨some f.clientKey⟩, true, writeFs s.fs (savedKeyPath cwd ip) f.clientKey, false⟩
  else s

/-- The device's reply to the register frame: immediately "registered", or a
"response" pairing prompt followed (on the operator's confirmation) by a
"registered" frame carrying the new client-key. -/
inductive DeviceReply where
  | immediate : DeviceReply
  | prompt : String → DeviceReply
deriving DecidableEq, Repr

/-- Result of one run of register: the client-key field sent in the register
frame's payload, and the resulting filesystem, pairing manifest and
registration flag. -/
structure RegisterResult where
  sentKey : Option String
  fs : Fs
  pairing : Pairing
  isRegistered : Bool

/-- The register routine (lines 197-242): read the key file named after the
device ip inside the configured keyPath and, when present, store it into the
pairing manifest; send the register frame with the manifest as payload; on an
immediate "registered" reply just set the flag; on a "response" prompt,
install the confirmation listener and process the later "registered" frame
carrying the new key. -/
def register (cwd kp ip : String) (fs : Fs) (p : Pairing) (reply : DeviceReply) :
    RegisterResult :=
  let p1 : Pairing :=
    match lookupFile fs (keyFilePath kp ip) with
    | some k => ⟨some k⟩
    | none => p
  match reply with
  | .immediate => ⟨p1.clientKey, fs, p1, true⟩
  | .prompt ck =>
    let c := confirmStep cwd ip ⟨p1, false, fs, true⟩ ⟨"registered", ck⟩
    ⟨p1.clientKey, c.fs, c.pairing, c.isRegistered⟩

/-- The runtime string values of the SoundOutput enum of helpers/enums. -/
def soundOutputValues : List String :=
  ["tv_speaker", "external_optical", "external_arc", "lineout", "headphone",
   "external_speaker", "tv_external_speaker", "tv_speaker_headphone",
   "bt_soundbar", "soundbar"]

/-- SoundOutput.Internal_Speaker, the middle command of the correction burst. -/
def internalSpeaker : String := "tv_speaker"

/-- One tick of the audio checker interval (lines 374-394): only while
connected and registered, query the current sound output; when the query
throws, `query = none` and the outer catch swallows it; when the queried
output differs from the desired one, issue setSoundOutput(desired),
setSoundOutput(Internal_Speaker), setSoundOutput(desired), and if one of the
three awaits throws (`failAt` gives the zero-based index of the first failing
command, none when all succeed) the catch issues setSoundOutput(desired) once
more. Returns the list of sound outputs passed to setSoundOutput, in order. -/
def audioTick (connected registered : Bool) (desired : String)
    (query : Option String) (failAt : Option Nat) : List String :=
  if connected && registered then
    match query with
    | some current =>
      if current != desired then
        match failAt with
        | none => [desired, internalSpeaker, desired]
        | some 0 => [desired, desired]
        | some 1 => [desired, internalSpeaker, desired]
        | some _ => [desired, internalSpeaker, desired, desired]
      else []
    | none => []
  else []

/-- Timer bookkeeping for the watchdog: the set of live interval timers (as a
list of timer ids), the handler's audioCheckInterval field, and a counter for
fresh timer ids. -/
structure WatchdogState where
  activeTimers : List Nat
  audioCheckInterval : Option Nat
  nextId : Nat
deriving DecidableEq, Repr

/-- Client construction: no timer scheduled, audioCheckInterval undefined. -/
def initWatchdog : WatchdogState := ⟨[], none, 0⟩

/-- stopAudioChecker (lines 354-358): if audioCheckInterval is set, clear that
interval timer; the field itself is left in place. -/
def stopAudioChecker (s : WatchdogState) : WatchdogState :=
  match s.audioCheckInterval with
  | some t => { s with activeTimers := s.activeTimers.filter (fun x => x != t) }
  | none => s

/-- The rejection message of audioChecker for an unrecognized sound output,
listing Object.values(SoundOutput) joined with ", ". -/
def invalidMsg : String :=
  "Invalid soundOutput. Valid values are: " ++ String.intercalate ", " soundOutputValues

/-- audioChecker (lines 365-394): an input not among the SoundOutput values
returns the descriptive message and changes nothing; a valid input first runs
stopAudioChecker, then schedules a fresh interval timer and stores it in
audioCheckInterval. -/
def audioChecker (desired : String) (s : WatchdogState) :
    Option String × WatchdogState :=
  if soundOutputValues.contains desired then
    let s1 := stopAudioChecker s
    (none, ⟨s1.activeTimers ++ [s1.nextId], some s1.nextId, s1.nextId + 1⟩)
  else (some invalidMsg, s)

/-- The single-watchdog invariant on the timer state: either no timer is
live, or exactly the timer stored in audioCheckInterval is live. -/
def WatchInv (s : WatchdogState) : Prop :=
  s.activeTimers = [] ∨
  ∃ t, s.audioCheckInterval = some t ∧ s.activeTimers = [t]

/-- The watchdog entry points a caller can invoke on the handler. -/
inductive WatchdogOp where
  | start : String → WatchdogOp
  | stop : WatchdogOp

/-- Apply one watchdog call to the timer state. -/
def applyWatchdogOp (s : WatchdogState) : WatchdogOp → WatchdogState
  | .start d => (audioChecker d s).2
  | .stop => stopAudioChecker s

/-- Run a sequence of watchdog calls. -/
def runWatchdogOps (s : WatchdogState) (ops : List WatchdogOp) : WatchdogState :=
  List.foldl applyWatchdogOp s ops

/-- The two connection flags of the handler. -/
structure ConnFlags where
  isConnected : Bool
  isRegistered : Bool
deriving DecidableEq, Repr

/-- Constructor state: both flags false (lines 96-97). -/
def connInit : ConnFlags := ⟨false, false⟩

/-- Events that mutate the connection flags: the socket's open event
(line 119), its close event (lines 127-128), and the arrival of a
"registered" handshake message, the only places that set isRegistered
(lines 222 and 236, both run on message delivery). -/
inductive ConnEv where
  | opened : ConnEv
  | closed : ConnEv
  | registeredMsg : ConnEv
deriving DecidableEq, Repr

/-- Flag updates of the three events. -/
def connStep (s : ConnFlags) : ConnEv → ConnFlags
  | .opened => ⟨true, s.isRegistered⟩
  | .closed => ⟨false, false⟩
  | .registeredMsg => ⟨s.isConnected, true⟩

/-- Run a trace of connection events. -/
def runConn (s : ConnFlags) (evs : List ConnEv) : ConnFlags :=
  List.foldl connStep s evs

/-- Delivery precondition of one event under WebSocket semantics: a message
event (hence a registeredMsg) can only be delivered while the socket is
connected; open and close events are always possible. -/
def connEvGuard (s : ConnFlags) : ConnEv → Bool
  | .registeredMsg => s.isConnected
  | .opened => true
  | .closed => true

/-- Well-formedness of a whole trace: every event satisfies its delivery
precondition in the state it fires in. -/
def wfConnTrace (s : ConnFlags) : List ConnEv → Bool
  | [] => true
  | e :: es => connEvGuard s e && wfConnTrace (connStep s e) es

/-- Settlement is write-once: settling again leaves an already settled
promise untouched. -/
theorem settle_settled_of_some (s : ReqState) (o o2 : Outcome)
    (h : s.settled = some o) : (settle o2 s).settled = some o := by
  simp [settle, h]

/-- Every step of the promise machinery preserves an already settled value:
the losing outcome, whichever it is, is a no-op. -/
theorem reqStep_settled_of_some (s : ReqState) (o : Outcome) (e : CorrEv)
    (h : s.settled = some o) : (reqStep s e).settled = some o := by
  cases e with
  | msg m =>
    cases m with
    | malformed raw =>
      by_cases hl : s.listenerActive
      · simpa [reqStep, hl] using settle_settled_of_some s o _ h
      · simp [reqStep, hl, h]
    | frame f =>
      by_cases hl : s.listenerActive
      · by_cases hm : idMatches f s.reqId
        · simpa [reqStep, hl, hm] using
            settle_settled_of_some { s with listenerActive := false } o _ h
        · simp [reqStep, hl, hm, h]
      · simp [reqStep, hl, h]
  | timeoutFire =>
    simpa [reqStep] using
      settle_settled_of_some { s with listenerActive := false } o _ h

/-- A sequence of later events preserves an already settled value. -/
theorem runReq_settled_of_some (evs : List CorrEv) :
    ∀ s : ReqState, ∀ o : Outcome, s.settled = some o →
      (runReq s evs).settled = some o := by
  induction evs with
  | nil => intro s o h; exact h
  | cons e rest ih =>
    intro s o h
    simpa [runReq, List.foldl_cons] using
      ih (reqStep s e) o (reqStep_settled_of_some s o e h)

/-- Events consisting only of parseable frames whose id does not match the
request leave the request's state untouched. -/
theorem runReq_no_match (evs : List CorrEv) :
    ∀ s : ReqState,
      (∀ e ∈ evs, ∃ f, e = CorrEv.msg (Inbound.frame f) ∧ idMatches f s.reqId = false) →
      runReq s evs = s := by
  induction evs with
  | nil => intro s _; rfl
  | cons e rest ih =>
    intro s h
    obtain ⟨f, he, hf⟩ := h e (by simp)
    subst he
    have hstep : reqStep s (CorrEv.msg (Inbound.frame f)) = s := by
      by_cases hl : s.listenerActive <;> simp [reqStep, hl, hf]
    have hrest : ∀ e ∈ rest, ∃ f, e = CorrEv.msg (Inbound.frame f) ∧ idMatches f s.reqId = false :=
      fun e he2 => h e (by simp [he2])
    calc runReq s (CorrEv.msg (Inbound.frame f) :: rest)
        = runReq (reqStep s (CorrEv.msg (Inbound.frame f))) rest := by
          simp [runReq, List.foldl_cons]
      _ = runReq s rest := by rw [hstep]
      _ = s := ih s hrest

/-- If the readiness flags stay false throughout the polling window, the wait
loop runs out of fuel and rejects. -/
theorem waitCheck_timeout (rdy : Nat → Bool) (timeout : Nat) :
    ∀ fuel elapsed, (∀ t, elapsed ≤ t → t ≤ elapsed + fuel → rdy t = false) →
      waitCheck rdy timeout fuel elapsed =
        Except.error ("Socket did not open within " ++ toString timeout ++ "ms") := by
  intro fuel
  induction fuel with
  | zero =>
    intro elapsed h
    simp [waitCheck, h elapsed le_rfl (by omega)]
  | succ f ih =>
    intro elapsed h
    have h0 : rdy elapsed = false := h elapsed le_rfl (by omega)
    simp [waitCheck, h0]
    exact ih (elapsed + 1) (fun t ht1 ht2 => h t (by omega) (by omega))

/-- If the readiness flags become true at some poll inside the window, the
wait loop resolves at or before that poll. -/
theorem waitCheck_ready (rdy : Nat → Bool) (timeout : Nat) :
    ∀ fuel elapsed t0, elapsed ≤ t0 → t0 ≤ elapsed + fuel → rdy t0 = true →
      ∃ n, elapsed ≤ n ∧ n ≤ t0 ∧ waitCheck rdy timeout fuel elapsed = Except.ok n := by
  intro fuel
  induction fuel with
  | zero =>
    intro elapsed t0 h1 h2 h3
    have he : t0 = elapsed := by omega
    subst he
    exact ⟨t0, le_rfl, le_rfl, by simp [waitCheck, h3]⟩
  | succ f ih =>
    intro elapsed t0 h1 h2 h3
    by_cases hr : rdy elapsed = true
    · exact ⟨elapsed, le_rfl, h1, by simp [waitCheck, hr]⟩
    · have hr' : rdy elapsed = false := by simpa using hr
      have hlt : elapsed + 1 ≤ t0 := by
        rcases Nat.lt_or_ge elapsed t0 with hcase | hcase
        · omega
        · have he : t0 = elapsed := by omega
          rw [he] at h3
          rw [h3] at hr'
          cases hr'
      obtain ⟨n, hn1, hn2, hn3⟩ := ih (elapsed + 1) t0 hlt (by omega) h3
      exact ⟨n, by omega, hn2, by simp [waitCheck, hr', hn3]⟩

/-- C10: every registration handshake frame carries the uri field
"ssap://undefined": sendMessage unconditionally concatenates the prefix with
its uri argument via a template literal, and register invokes it with an
undefined uri, so the field is present with that literal value rather than
omitted. -/
theorem register_uri_undefined (id : String) :
    (registerFrame id).uri = "ssap://undefined" := rfl

/-- C2: a sendMessage call with type "request" made while the connection is
not registered polls the flags at 1 ms granularity up to a 5000 ms timeout;
if isConnected and isRegistered never both hold within the window, the call
rejects with the SocketNotReady error ("Socket did not open within 5000ms")
and no outbound frame is sent; if the flags do become ready at some poll
within the window, the wait resolves at or before that poll and the frame is
then sent. -/
theorem sendMessage_waits_for_registered (connected registered : Nat → Bool)
    (id : String) (uri : Option String) (pfx : String) :
    ((∀ t, t ≤ 5000 → socketReady connected registered t = false) →
      sendMessagePre "request" connected registered id uri pfx =
        (Except.error "Socket did not open within 5000ms", [])) ∧
    (∀ t0, t0 ≤ 5000 → socketReady connected registered t0 = true →
      ∃ n, n ≤ t0 ∧
        waitForSocketOpen connected registered 5000 = Except.ok n ∧
        (sendMessagePre "request" connected registered id uri pfx).2 =
          [mkOutFrame id "request" uri pfx]) := by
  constructor
  · intro h
    have hw : waitForSocketOpen connected registered 5000 =
        Except.error ("Socket did not open within " ++ toString 5000 ++ "ms") := by
      apply waitCheck_timeout
      intro t ht1 ht2
      exact h t (by omega)
    simp only [sendMessagePre, hw]
    rfl
  · intro t0 ht hr
    obtain ⟨n, hn1, hn2, hn3⟩ :=
      waitCheck_ready (socketReady connected registered) 5000 5000 0 t0
        (Nat.zero_le t0) (by omega) hr
    refine ⟨n, hn2, ?_, ?_⟩
    · simpa [waitForSocketOpen] using hn3
    · simp [sendMessagePre, waitForSocketOpen, hn3]

/-- Witness for C2: with flags that never become ready, the request rejects
with the SocketNotReady error and sends nothing. -/
theorem sendMessage_waits_for_registered_witness :
    sendMessagePre "request" (fun _ => false) (fun _ => false)
        "id-1" (some "audio/getVolume") "ssap://" =
      (Except.error "Socket did not open within 5000ms", []) :=
  (sendMessage_waits_for_registered (fun _ => false) (fun _ => false)
      "id-1" (some "audio/getVolume") "ssap://").1 (fun _ _ => rfl)

/-- Counterexample to C4 as stated: an inbound event that fails to parse,
received while a sendMessage call is pending, does not leave the call's
promise unsettled — the listener's catch rejects it with the parse error, so
the failure is surfaced to the caller of send. -/
theorem parse_failure_claim_cex :
    (reqStep (initReq "req-1") (CorrEv.msg (Inbound.malformed "not json"))).settled ≠ none ∧
    (reqStep (initReq "req-1") (CorrEv.msg (Inbound.malformed "not json"))).settled =
      some (Outcome.parseError "not json") := by
  exact ⟨by decide, by decide⟩

/-- C4 amended: a parse failure on inbound data received while a sendMessage
call is pending rejects that pending call with the parse error (it is
propagated, not swallowed) and leaves the listener registered; a non-handshake
frame delivered to register's confirmation listener before registration
completes is discarded without any effect. -/
theorem parse_failure_amended (id raw cwd ip : String) (s : ConfirmState)
    (f : HandshakeFrame) (hf : (f.type == "registered") = false) :
    (reqStep (initReq id) (CorrEv.msg (Inbound.malformed raw))).settled =
      some (Outcome.parseError raw) ∧
    (reqStep (initReq id) (CorrEv.msg (Inbound.malformed raw))).listenerActive = true ∧
    confirmStep cwd ip s f = s := by
  refine ⟨?_, ?_, ?_⟩
  · simp [reqStep, initReq, settle]
  · simp [reqStep, initReq, settle]
  · simp [confirmStep, hf]

/-- Witness for C4 amended: a concrete malformed event rejects the pending
call, and a concrete "response" frame is ignored by the confirmation
listener. -/
theorem parse_failure_amended_witness :
    (reqStep (initReq "req-4") (CorrEv.msg (Inbound.malformed "garbage"))).settled =
      some (Outcome.parseError "garbage") ∧
    (reqStep (initReq "req-4") (CorrEv.msg (Inbound.malformed "garbage"))).listenerActive = true ∧
    confirmStep "/app" "10.0.0.5" ⟨pairingInit, false, [], true⟩ ⟨"response", ""⟩ =
      ⟨pairingInit, false, [], true⟩ :=
  parse_failure_amended "req-4" "garbage" "/app" "10.0.0.5"
    ⟨pairingInit, false, [], true⟩ ⟨"response", ""⟩ (by decide)

/-- Counterexample to C3 as stated: a request that receives no inbound frame
with a matching id within the window does not necessarily fail with Timeout —
if unparseable inbound data arrives first, the call is rejected with the
parse error instead. -/
theorem timeout_claim_cex :
    (runReq (initReq "req-2")
        [CorrEv.msg (Inbound.malformed "oops"), CorrEv.timeoutFire]).settled ≠
      some Outcome.timedOut ∧
    (runReq (initReq "req-2")
        [CorrEv.msg (Inbound.malformed "oops"), CorrEv.timeoutFire]).settled =
      some (Outcome.parseError "oops") := by
  exact ⟨by decide, by decide⟩

/-- C3 amended: a request whose inbound events up to the 5000 ms timeout are
all parseable frames with non-matching ids fails with Timeout when the timeout
fires, and its message listener is removed; the settled value is write-once,
so only one outcome takes effect and no resolution fires after the timeout,
whatever arrives later. -/
theorem timeout_behavior_amended (id : String) (evs later : List CorrEv)
    (h : ∀ e ∈ evs, ∃ f, e = CorrEv.msg (Inbound.frame f) ∧ idMatches f id = false) :
    (runReq (initReq id) (evs ++ [CorrEv.timeoutFire])).settled = some Outcome.timedOut ∧
    (runReq (initReq id) (evs ++ [CorrEv.timeoutFire])).listenerActive = false ∧
    (runReq (runReq (initReq id) (evs ++ [CorrEv.timeoutFire])) later).settled =
      some Outcome.timedOut := by
  have hpre : runReq (initReq id) evs = initReq id :=
    runReq_no_match evs (initReq id) (by simpa [initReq] using h)
  have hrun : runReq (initReq id) (evs ++ [CorrEv.timeoutFire]) =
      ⟨id, some Outcome.timedOut, false⟩ := by
    rw [runReq, List.foldl_append]
    rw [show List.foldl reqStep (initReq id) evs = runReq (initReq id) evs from rfl]
    rw [hpre]
    simp [runReq, reqStep, initReq, settle]
  refine ⟨by rw [hrun], by rw [hrun], ?_⟩
  rw [hrun]
  exact runReq_settled_of_some later ⟨id, some Outcome.timedOut, false⟩
    Outcome.timedOut rfl

/-- Witness for C3 amended: a non-matching frame arrives, the timeout fires,
the call is settled with Timeout, and a late matching frame delivered after
the timeout changes nothing. -/
theorem timeout_behavior_amended_witness :
    (runReq (initReq "req-3")
        ([CorrEv.msg (Inbound.frame ⟨some "other", "response", ""⟩)] ++
          [CorrEv.timeoutFire])).settled = some Outcome.timedOut ∧
    (runReq (initReq "req-3")
        ([CorrEv.msg (Inbound.frame ⟨some "other", "response", ""⟩)] ++
          [CorrEv.timeoutFire])).listenerActive = false ∧
    (runReq (runReq (initReq "req-3")
        ([CorrEv.msg (Inbound.frame ⟨some "other", "response", ""⟩)] ++
          [CorrEv.timeoutFire]))
        [CorrEv.msg (Inbound.frame ⟨some "req-3", "response", "late"⟩)]).settled =
      some Outcome.timedOut := by
  exact timeout_behavior_amended "req-3"
    [CorrEv.msg (Inbound.frame ⟨some "other", "response", ""⟩)]
    [CorrEv.msg (Inbound.frame ⟨some "req-3", "response", "late"⟩)]
    (by intro e he
        simp at he
        subst he
        exact ⟨⟨some "other", "response", ""⟩, rfl, by decide⟩)

/-- C1: two concurrently pending requests with distinct (truthy) ids each
resolve with exactly the inbound frame whose id equals the id that call
generated, in whichever order the two response frames arrive; and a response
frame whose id matches no pending request resolves no call. -/
theorem sendMessage_id_correlation (a b : String) (fa fb : InFrame)
    (msgs : List Inbound)
    (ha : fa.id = some a) (hb : fb.id = some b)
    (hta : a ≠ "") (htb : b ≠ "") (hab : a ≠ b)
    (horder : msgs = [Inbound.frame fa, Inbound.frame fb] ∨
              msgs = [Inbound.frame fb, Inbound.frame fa]) :
    runAll msgs [initReq a, initReq b] =
      [⟨a, some (Outcome.response fa), false⟩, ⟨b, some (Outcome.response fb), false⟩] ∧
    ∀ g : InFrame, idMatches g a = false → idMatches g b = false →
      deliverAll (Inbound.frame g) [initReq a, initReq b] = [initReq a, initReq b] := by
  have hba : b ≠ a := fun he => hab he.symm
  have heqab : (a == b) = false := beq_eq_false_iff_ne.mpr hab
  have heqba : (b == a) = false := beq_eq_false_iff_ne.mpr hba
  have hmaa : idMatches fa a = true := by simp [idMatches, ha, jsTruthy, hta]
  have hmbb : idMatches fb b = true := by simp [idMatches, hb, jsTruthy, htb]
  have hmab : idMatches fa b = false := by simp [idMatches, ha, jsTruthy, heqab]
  have hmba : idMatches fb a = false := by simp [idMatches, hb, jsTruthy, heqba]
  constructor
  · rcases horder with rfl | rfl
    · simp [runAll, deliverAll, reqStep, initReq, hmaa, hmbb, hmab, hmba, settle]
    · simp [runAll, deliverAll, reqStep, initReq, hmaa, hmbb, hmab, hmba, settle]
  · intro g hga hgb
    simp [deliverAll, reqStep, initReq, hga, hgb]

/-- Witness for C1: two concrete requests, responses arriving in reversed
order, each call resolved with its own frame; a stray frame with an unknown
id resolves neither. -/
theorem sendMessage_id_correlation_witness :
    runAll [Inbound.frame ⟨some "id-b", "response", "rb"⟩,
            Inbound.frame ⟨some "id-a", "response", "ra"⟩]
        [initReq "id-a", initReq "id-b"] =
      [⟨"id-a", some (Outcome.response ⟨some "id-a", "response", "ra"⟩), false⟩,
       ⟨"id-b", some (Outcome.response ⟨some "id-b", "response", "rb"⟩), false⟩] ∧
    deliverAll (Inbound.frame ⟨some "id-z", "response", "stray"⟩)
        [initReq "id-a", initReq "id-b"] = [initReq "id-a", initReq "id-b"] := by
  have h := sendMessage_id_correlation "id-a" "id-b"
      ⟨some "id-a", "response", "ra"⟩ ⟨some "id-b", "response", "rb"⟩
      [Inbound.frame ⟨some "id-b", "response", "rb"⟩,
       Inbound.frame ⟨some "id-a", "response", "ra"⟩]
      rfl rfl (by decide) (by decide) (by decide) (Or.inr rfl)
  exact ⟨h.1, h.2 ⟨some "id-z", "response", "stray"⟩ (by decide) (by decide)⟩

/-- Reading a path right after writing it returns the written contents. -/
theorem lookup_writeFs (fs : Fs) (p c : String) :
    lookupFile (writeFs fs p c) p = some c := by
  induction fs with
  | nil => simp [writeFs, lookupFile]
  | cons hd rest ih =>
    obtain ⟨q, d⟩ := hd
    by_cases hq : (q == p) = true
    · simp [writeFs, lookupFile, hq]
    · have hq' : (q == p) = false := by simpa using hq
      simp [writeFs, lookupFile, hq', ih]

/-- Counterexample to C5 as stated: with a configured keyPath of "/custom"
(cwd "/app"), receiving a registered response carrying the new credential
"ABC123" does not persist it under the configured directory — a subsequent
load from the configured keyPath finds nothing, because the write went to the
hardcoded relative path "./keys/10.0.0.5". -/
theorem credential_roundtrip_claim_cex :
    lookupFile
        (register "/app" "/custom" "10.0.0.5" [] pairingInit
          (DeviceReply.prompt "ABC123")).fs
        (keyFilePath "/custom" "10.0.0.5") = none ∧
    lookupFile
        (register "/app" "/custom" "10.0.0.5" [] pairingInit
          (DeviceReply.prompt "ABC123")).fs
        (savedKeyPath "/app" "10.0.0.5") = some "ABC123" := by
  exact ⟨rfl, rfl⟩

/-- C5 amended: at a fresh process start, when no credential file exists under
the configured keyPath for the device address, the register frame is sent
without a client-key; when one exists there, it is included; and on receiving
a registered response carrying a new credential, the credential is written to
"./keys/<ip>", so a subsequent load round-trips exactly when the configured
keyPath is the default cwd()/keys — not for an arbitrary configured keyPath. -/
theorem credential_roundtrip_amended (cwd kp ip k ck : String) (fs : Fs)
    (p : Pairing) (reply : DeviceReply) :
    (lookupFile fs (keyFilePath kp ip) = none →
      (register cwd kp ip fs pairingInit reply).sentKey = none) ∧
    (lookupFile fs (keyFilePath kp ip) = some k →
      (register cwd kp ip fs p reply).sentKey = some k) ∧
    lookupFile
        (register cwd (defaultKeyPath cwd) ip fs p (DeviceReply.prompt ck)).fs
        (keyFilePath (defaultKeyPath cwd) ip) = some ck := by
  refine ⟨?_, ?_, ?_⟩
  · intro h
    cases reply <;> simp [register, h, pairingInit]
  · intro h
    cases reply <;> simp [register, h]
  · cases hl : lookupFile fs (keyFilePath (defaultKeyPath cwd) ip) <;>
      simp [register, hl, confirmStep, savedKeyPath, keyFilePath, defaultKeyPath,
        lookup_writeFs]

/-- Witness for C5 amended: concrete device at cwd "/app" with the default
key directory "/app/keys": no key file means no client-key sent; an existing
key file is sent; and a newly obtained key round-trips through the default
directory. -/
theorem credential_roundtrip_amended_witness :
    (register "/app" "/app/keys" "10.0.0.5" [] pairingInit
        DeviceReply.immediate).sentKey = none ∧
    (register "/app" "/app/keys" "10.0.0.5" [("/app/keys/10.0.0.5", "OLDKEY")]
        pairingInit DeviceReply.immediate).sentKey = some "OLDKEY" ∧
    lookupFile
        (register "/app" (defaultKeyPath "/app") "10.0.0.5" [] pairingInit
          (DeviceReply.prompt "ABC123")).fs
        (keyFilePath (defaultKeyPath "/app") "10.0.0.5") = some "ABC123" := by
  refine ⟨?_, ?_, ?_⟩
  · exact (credential_roundtrip_amended "/app" "/app/keys" "10.0.0.5" "OLDKEY"
      "ABC123" [] pairingInit DeviceReply.immediate).1 rfl
  · exact (credential_roundtrip_amended "/app" "/app/keys" "10.0.0.5" "OLDKEY"
      "ABC123" [("/app/keys/10.0.0.5", "OLDKEY")] pairingInit
      DeviceReply.immediate).2.1 (by decide)
  · exact (credential_roundtrip_amended "/app" "/app/keys" "10.0.0.5" "OLDKEY"
      "ABC123" [] pairingInit DeviceReply.immediate).2.2

/-- C6: in a poll iteration that runs while connected and registered, if the
queried sound output differs from the desired one the watchdog issues a
correction command for the desired output (whatever the failure mode of the
burst), and if the queried output equals the desired one it issues no command
at all. -/
theorem audioChecker_correction (desired current : String) (failAt : Option Nat) :
    (current ≠ desired →
      desired ∈ audioTick true true desired (some current) failAt) ∧
    audioTick true true desired (some desired) failAt = [] := by
  constructor
  · intro h
    have h' : (current != desired) = true := bne_iff_ne.mpr h
    rcases failAt with _ | n
    · simp [audioTick, h']
    · match n with
      | 0 => simp [audioTick, h']
      | 1 => simp [audioTick, h']
      | Nat.succ (Nat.succ m) => simp [audioTick, h']
  · simp [audioTick]

/-- Witness for C6: desired output external_arc; a poll reading tv_speaker
triggers a correction to external_arc, a poll reading external_arc issues
nothing. -/
theorem audioChecker_correction_witness :
    ("tv_speaker" : String) ≠ "external_arc" ∧
    "external_arc" ∈ audioTick true true "external_arc" (some "tv_speaker") none ∧
    audioTick true true "external_arc" (some "external_arc") none = [] :=
  ⟨by decide,
   (audioChecker_correction "external_arc" "tv_speaker" none).1 (by decide),
   (audioChecker_correction "external_arc" "tv_speaker" none).2⟩

/-- Under the single-watchdog invariant, stopAudioChecker leaves no live
timer. -/
theorem stop_empty (s : WatchdogState) (h : WatchInv s) :
    (stopAudioChecker s).activeTimers = [] := by
  rcases h with h | ⟨t, h1, h2⟩
  · unfold stopAudioChecker
    cases hi : s.audioCheckInterval <;> simp [h, hi]
  · unfold stopAudioChecker
    simp [h1, h2]

/-- A valid start leaves exactly the freshly scheduled timer live. -/
theorem start_timers (d : String) (s : WatchdogState)
    (hc : soundOutputValues.contains d = true) (h : WatchInv s) :
    (audioChecker d s).2.activeTimers = [(stopAudioChecker s).nextId] := by
  have hm : d ∈ soundOutputValues := by simpa using hc
  simp [audioChecker, hm, stop_empty s h]

/-- Every watchdog call preserves the single-watchdog invariant. -/
theorem watchInv_apply (s : WatchdogState) (op : WatchdogOp) (h : WatchInv s) :
    WatchInv (applyWatchdogOp s op) := by
  cases op with
  | start d =>
    by_cases hc : soundOutputValues.contains d = true
    · have hm : d ∈ soundOutputValues := by simpa using hc
      right
      exact ⟨(stopAudioChecker s).nextId, by simp [applyWatchdogOp, audioChecker, hm],
        by simpa [applyWatchdogOp] using start_timers d s hc h⟩
    · have hm : d ∉ soundOutputValues := by simpa using hc
      simpa [applyWatchdogOp, audioChecker, hm] using h
  | stop =>
    exact Or.inl (by simpa [applyWatchdogOp] using stop_empty s h)

/-- Every state reachable from construction satisfies the single-watchdog
invariant. -/
theorem watchInv_run (ops : List WatchdogOp) :
    WatchInv (runWatchdogOps initWatchdog ops) := by
  suffices hgen : ∀ ops2 : List WatchdogOp, ∀ s : WatchdogState, WatchInv s →
      WatchInv (runWatchdogOps s ops2) from
    hgen ops initWatchdog (Or.inl rfl)
  intro ops2
  induction ops2 with
  | nil => intro s h; exact h
  | cons op rest ih =>
    intro s h
    simpa [runWatchdogOps, List.foldl_cons] using
      ih (applyWatchdogOp s op) (watchInv_apply s op h)

/-- C7: after any sequence of watchdog calls from construction, at most one
periodic audio-checker timer is live; and starting the watchdog twice with
valid outputs from such a state leaves exactly one live timer (the earlier
one is cancelled first). -/
theorem audioChecker_single_instance (ops : List WatchdogOp) (d1 d2 : String)
    (_h1 : soundOutputValues.contains d1 = true)
    (h2 : soundOutputValues.contains d2 = true) :
    (runWatchdogOps initWatchdog ops).activeTimers.length ≤ 1 ∧
    ((audioChecker d2
        (audioChecker d1 (runWatchdogOps initWatchdog ops)).2).2).activeTimers.length = 1 := by
  have hs : WatchInv (runWatchdogOps initWatchdog ops) := watchInv_run ops
  constructor
  · rcases hs with h | ⟨t, _, h⟩ <;> simp [h]
  · have hs1 : WatchInv (audioChecker d1 (runWatchdogOps initWatchdog ops)).2 := by
      simpa [applyWatchdogOp] using
        watchInv_apply (runWatchdogOps initWatchdog ops) (WatchdogOp.start d1) hs
    rw [start_timers d2 _ h2 hs1]
    rfl

/-- Witness for C7: from a fresh client, starting the watchdog twice with two
valid outputs leaves exactly one live timer. -/
theorem audioChecker_single_instance_witness :
    (runWatchdogOps initWatchdog []).activeTimers.length ≤ 1 ∧
    ((audioChecker "tv_speaker"
        (audioChecker "external_arc" (runWatchdogOps initWatchdog [])).2).2).activeTimers.length = 1 :=
  audioChecker_single_instance [] "external_arc" "tv_speaker" (by decide) (by decide)

/-- C8: audioChecker on a value outside the SoundOutput enumeration returns
the descriptive error message (rather than throwing) and leaves the timer
state untouched, so no periodic task is scheduled and no polling ever occurs
for that call; the message lists the valid values. -/
theorem audioChecker_invalid_input (desired : String) (s : WatchdogState)
    (h : soundOutputValues.contains desired = false) :
    audioChecker desired s = (some invalidMsg, s) ∧
    invalidMsg = "Invalid soundOutput. Valid values are: tv_speaker, external_optical, external_arc, lineout, headphone, external_speaker, tv_external_speaker, tv_speaker_headphone, bt_soundbar, soundbar" := by
  have hm : desired ∉ soundOutputValues := by simpa using h
  constructor
  · simp [audioChecker, hm]
  · rfl

/-- Witness for C8: the concrete invalid value "bogus" on a fresh client. -/
theorem audioChecker_invalid_input_witness :
    audioChecker "bogus" initWatchdog = (some invalidMsg, initWatchdog) :=
  (audioChecker_invalid_input "bogus" initWatchdog (by decide)).1

/-- Inductive step for C9: the implication Registered to Connected is
preserved along any well-formed event trace. -/
theorem conn_inv_run (evs : List ConnEv) :
    ∀ s : ConnFlags, (s.isRegistered = true → s.isConnected = true) →
      wfConnTrace s evs = true →
      ((runConn s evs).isRegistered = true → (runConn s evs).isConnected = true) := by
  induction evs with
  | nil => intro s h _; exact h
  | cons e rest ih =>
    intro s h hwf
    rw [wfConnTrace, Bool.and_eq_true] at hwf
    have hinv : (connStep s e).isRegistered = true → (connStep s e).isConnected = true := by
      cases e with
      | opened => intro _; rfl
      | closed => intro hh; exact hh
      | registeredMsg =>
        intro _
        simpa [connStep, connEvGuard] using hwf.1
    simpa [runConn, List.foldl_cons] using ih (connStep s e) hinv hwf.2

/-- C9: in every state reachable by a well-formed event trace from
construction (messages, hence registration, only delivered while the socket
is connected; close resets both flags), isRegistered implies isConnected. -/
theorem registered_implies_connected (evs : List ConnEv)
    (h : wfConnTrace connInit evs = true) :
    (runConn connInit evs).isRegistered = true →
    (runConn connInit evs).isConnected = true :=
  conn_inv_run evs connInit (fun hh => by simp [connInit] at hh) h

/-- Witness for C9: after opening and registering, the client is both
registered and connected. -/
theorem registered_implies_connected_witness :
    (runConn connInit [ConnEv.opened, ConnEv.registeredMsg]).isConnected = true :=
  registered_implies_connected [ConnEv.opened, ConnEv.registeredMsg] rfl rfl

end LGTV
